import Mathlib

/-!
Verification of the build-configuration logic of `setup.py` in the
faiss-wheels repository.  The script reads process environment variables
and a platform identifier and deterministically assembles:
  * a package identity string (`PACKAGE_NAME`),
  * an extension specification (`_swigfaiss`, including `swig_opts`),
  * the link strategy chosen inside `CustomBuildExt.run`,
  * the compiler flag lists rewritten by `CustomBuildExt.build_extensions`
    and `CustomBuildExt._remove_flag`.
We embed these shallowly: the process environment becomes a function
`String → Option String`, Python string builtins used by the script
(`str.split()`, `str.strip()`, `str.replace('.', '')`, the `in`
substring test, truthiness of `os.getenv`) are given executable Lean
counterparts, and the mutation of `self.link_objects` / `self.libraries`
/ compiler argument lists becomes explicit state passing.
-/

/-- A process environment: partial map from variable names to values.
`os.environ` / `os.getenv`. -/
def Env : Type := String → Option String

/-- `os.getenv(k, d)`: the value of `k`, or the default `d` when unset. -/
def GETENV (env : Env) (k d : String) : String := (env k).getD d

/-- Python truthiness of an `os.getenv(k)` result: `None` and the empty
string are falsy, every other string is truthy. -/
def pyTruthy : Option String → Bool
  | none => false
  | some s => !(s == "")

/-- Python substring test `pat in s`. -/
def pyIn (pat s : String) : Bool := decide (List.IsInfix pat.data s.data)

/-- Helper for Python `str.split()` (no separator): consume the character
list, accumulating the current (reversed) token in `acc`; whitespace
ends a token, and empty tokens are never produced. -/
def wsTokensAux : List Char → List Char → List (List Char)
  | [], acc => if acc.isEmpty then [] else [acc.reverse]
  | c :: rest, acc =>
    if c.isWhitespace then
      if acc.isEmpty then wsTokensAux rest []
      else acc.reverse :: wsTokensAux rest []
    else wsTokensAux rest (c :: acc)

/-- Python `str.split()` with no separator: split on runs of whitespace,
discarding empty tokens. -/
def pySplitWs (s : String) : List String :=
  (wsTokensAux s.data []).map (fun l => ⟨l⟩)

/-- Python `str.strip()`: remove leading and trailing whitespace. -/
def pyStrip (s : String) : String :=
  ⟨((s.data.dropWhile Char.isWhitespace).reverse.dropWhile
      Char.isWhitespace).reverse⟩

/-- Python `str.replace('.', '')` as used on the CUDA version string:
remove every dot. -/
def pyReplaceDot (s : String) : String :=
  ⟨s.data.filter (fun c => c ≠ '.')⟩

/-- `BUILD_CUDA = ('FAISS_BUILD_CUDA' in os.environ)` — presence of the
key, regardless of its value. -/
def BUILD_CUDA (env : Env) : Bool := (env "FAISS_BUILD_CUDA").isSome

/-- `PACKAGE_NAME = 'faiss-cu%s' % os.getenv('CUDA_VERSION',
'7.5').replace('.', '') if BUILD_CUDA else 'faiss-cpu'`. -/
def PACKAGE_NAME (env : Env) : String :=
  if BUILD_CUDA env then
    "faiss-cu" ++ pyReplaceDot (GETENV env "CUDA_VERSION" "7.5")
  else "faiss-cpu"

/-- The GPU runtime libraries appended by `CustomBuildExt.run` when
`BUILD_CUDA` holds. -/
def gpuLibraries : List String := ["cudart_static", "cublas_static", "culibos"]

/-- The mutable link-related state of the `build_ext` command:
`self.link_objects` (possibly `None`) and `self.libraries`. -/
structure LinkState where
  link_objects : Option (List String)
  libraries : List String
  deriving DecidableEq, Repr

/-- The state of the command when `CustomBuildExt.run` starts: no link
objects configured, no libraries. -/
def initState : LinkState := ⟨none, []⟩

/-- The link-strategy part of `CustomBuildExt.run`:
if `os.getenv('FAISS_LDFLAGS')` is truthy, initialize `link_objects` to
`[]` when `None` and append the stripped whitespace-split tokens;
otherwise append `'faiss'` to `libraries`, plus the GPU runtime
libraries when `BUILD_CUDA`. -/
def runLinkSetup (env : Env) (st : LinkState) : LinkState :=
  let link_flags := env "FAISS_LDFLAGS"
  if pyTruthy link_flags then
    { st with
      link_objects :=
        some ((st.link_objects.getD []) ++
          (pySplitWs (link_flags.getD "")).map pyStrip) }
  else
    { st with
      libraries := st.libraries ++ ["faiss"] ++
        (if BUILD_CUDA env then gpuLibraries else []) }

/-- The compiler argument lists touched by `CustomBuildExt._remove_flag`:
`self.compiler.compiler`, `self.compiler.compiler_cxx`,
`self.compiler.compiler_so`. -/
structure CompilerState where
  compiler : List String
  compiler_cxx : List String
  compiler_so : List String
  deriving DecidableEq, Repr

/-- The loop `while flag in args: args.remove(flag)` of
`CustomBuildExt._remove_flag`: repeatedly delete the first occurrence of
`flag` until none remains. -/
def removeFlagLoop (flag : String) (args : List String) : List String :=
  if h : flag ∈ args then removeFlagLoop flag (args.erase flag) else args
termination_by args.length
decreasing_by
  have hlen := List.length_erase_of_mem h
  have hpos : 0 < args.length := List.length_pos.mpr (by rintro rfl; simp at h)
  omega

/-- `CustomBuildExt._remove_flag(flag)`: run the removal loop on each of
the three compiler argument lists. -/
def removeFlag (flag : String) (st : CompilerState) : CompilerState :=
  { compiler := removeFlagLoop flag st.compiler
    compiler_cxx := removeFlagLoop flag st.compiler_cxx
    compiler_so := removeFlagLoop flag st.compiler_so }

/-- `CustomBuildExt.build_extensions`: always strip
`-Wstrict-prototypes`; then, when the compiler name
(`self.compiler.compiler[0]`) contains `gcc` or `g++`, also strip the
clang-specific `-Wshorten-64-to-32`. -/
def buildExtensions (st : CompilerState) : CompilerState :=
  let st1 := removeFlag "-Wstrict-prototypes" st
  let compiler_name := st1.compiler.headD ""
  if pyIn "gcc" compiler_name || pyIn "g++" compiler_name then
    removeFlag "-Wshorten-64-to-32" st1
  else st1

/-- The fields of the `Extension` constructed as `_swigfaiss`. -/
structure ExtensionSpec where
  name : String
  sources : List String
  define_macros : List (String × String)
  language : String
  library_dirs : List String
  include_dirs : List String
  extra_compile_args : List String
  extra_link_args : List String
  swig_opts : List String
  deriving DecidableEq, Repr

/-- The `_swigfaiss = Extension(...)` call, as a function of the process
environment and of `distutils.util.get_platform()`. -/
def swigfaissExt (env : Env) (platform : String) : ExtensionSpec :=
  { name := "faiss._swigfaiss"
    sources := ["python/swigfaiss.i"]
    define_macros := [("FINTEGER", "int")]
    language := "c++"
    library_dirs := [GETENV env "CUDA_HOME" "/usr/local/cuda" ++ "/lib64"]
    include_dirs :=
      [GETENV env "FAISS_INCLUDE" "/usr/local/include/faiss",
       GETENV env "CUDA_HOME" "/usr/local/cuda" ++ "/include"]
    extra_compile_args :=
      ["-std=c++11", "-mavx2", "-mf16c", "-msse4", "-mpopcnt", "-m64",
       "-Wno-sign-compare", "-fopenmp"]
    extra_link_args := ["-fopenmp"]
    swig_opts :=
      ["-c++", "-Doverride=",
       "-I" ++ GETENV env "FAISS_INCLUDE" "/usr/local/include/faiss",
       "-I" ++ GETENV env "CUDA_HOME" "/usr/local/cuda" ++ "/include"] ++
      (if pyIn "macos" platform then [] else ["-DSWIGWORDSIZE64"]) ++
      (if BUILD_CUDA env then ["-DGPU_WRAPPER"] else []) }

/-- Everything the configuration step produces from the environment and
the platform identifier: the extension spec, the link state after
`CustomBuildExt.run`, and the package identity. -/
structure BuildOutcome where
  ext : ExtensionSpec
  link : LinkState
  package_name : String
  deriving DecidableEq, Repr

/-- One configuration run: the whole outcome as a function of the
process environment and the platform identifier. -/
def configure (env : Env) (platform : String) : BuildOutcome :=
  ⟨swigfaissExt env platform, runLinkSetup env initState, PACKAGE_NAME env⟩

/-- The environment variables the configuration reads. -/
def relevantVars : List String :=
  ["FAISS_BUILD_CUDA", "CUDA_VERSION", "FAISS_INCLUDE", "CUDA_HOME",
   "FAISS_LDFLAGS"]

/-- Removing every occurrence of a flag from the three compiler argument
lists, written with `List.filter`; used to characterize
`buildExtensions`. -/
def stripFlagEverywhere (flag : String) (st : CompilerState) : CompilerState :=
  { compiler := st.compiler.filter (fun x => x ≠ flag)
    compiler_cxx := st.compiler_cxx.filter (fun x => x ≠ flag)
    compiler_so := st.compiler_so.filter (fun x => x ≠ flag) }

/-- Concrete test environment: nothing set. -/
def envNone : Env := fun _ => none

/-- Concrete test environment: GPU build requested, CUDA version 9.0. -/
def envGpu90 : Env := fun k =>
  if k = "FAISS_BUILD_CUDA" then some "1"
  else if k = "CUDA_VERSION" then some "9.0" else none

/-- Concrete test environment: GPU build requested together with
explicit link flags. -/
def envGpuLd : Env := fun k =>
  if k = "FAISS_BUILD_CUDA" then some "1"
  else if k = "FAISS_LDFLAGS" then some "/opt/faiss/libfaiss.a -lgomp"
  else none

/-- Concrete test environment: `FAISS_LDFLAGS` set to the empty
string. -/
def envLdEmpty : Env := fun k =>
  if k = "FAISS_LDFLAGS" then some "" else none

/-- Concrete test environment: `FAISS_LDFLAGS` set to a non-empty
string with surrounding and repeated whitespace. -/
def envLd : Env := fun k =>
  if k = "FAISS_LDFLAGS" then some " -lfaiss  -lgomp " else none

/-- Concrete test environment: `FAISS_BUILD_CUDA` present but set to
the empty string. -/
def envCudaEmptyVal : Env := fun k =>
  if k = "FAISS_BUILD_CUDA" then some "" else none

/-- Concrete test environment: only a variable irrelevant to the build
configuration is set. -/
def envExtra : Env := fun k =>
  if k = "HOME" then some "/root" else none

/-!  Helper lemmas. -/

/-- Erasing one occurrence of `a` does not change the result of
filtering `a` away. -/
theorem filter_ne_erase (a : α) [DecidableEq α] :
    ∀ l : List α, (l.erase a).filter (fun x => x ≠ a) = l.filter (fun x => x ≠ a)
  | [] => rfl
  | b :: t => by
    have ih := filter_ne_erase a t
    by_cases hb : b = a
    · subst hb
      simp [List.erase_cons]
    · rw [List.erase_cons, if_neg (by simpa using hb), List.filter_cons, ih,
        List.filter_cons]

/-- The `while flag in args: args.remove(flag)` loop removes exactly the
occurrences of `flag`. -/
theorem removeFlagLoop_eq_filter (flag : String) (l : List String) :
    removeFlagLoop flag l = l.filter (fun x => x ≠ flag) := by
  rw [removeFlagLoop]
  by_cases h : flag ∈ l
  · simp only [h, dite_true]
    rw [removeFlagLoop_eq_filter flag (l.erase flag), filter_ne_erase]
  · simp only [h, dite_false]
    exact (List.filter_eq_self.mpr (fun a ha => by
      simp only [decide_eq_true_eq, ne_eq]
      rintro rfl; exact h ha)).symm
termination_by l.length
decreasing_by
  have hlen := List.length_erase_of_mem h
  have hpos : 0 < l.length := List.length_pos.mpr (by rintro rfl; simp at h)
  omega

/-- Every character of every token produced by `wsTokensAux` is
non-whitespace, provided the accumulator holds no whitespace. -/
theorem wsTokensAux_no_ws :
    ∀ (l acc : List Char), (∀ c ∈ acc, c.isWhitespace = false) →
      ∀ t ∈ wsTokensAux l acc, ∀ c ∈ t, c.isWhitespace = false
  | [], acc, hacc => by
    intro t ht c hc
    unfold wsTokensAux at ht
    by_cases h : acc.isEmpty
    · rw [if_pos h] at ht
      simp at ht
    · rw [if_neg h] at ht
      simp only [List.mem_singleton] at ht
      subst ht
      exact hacc c (List.mem_reverse.mp hc)
  | c :: rest, acc, hacc => by
    intro t ht d hd
    unfold wsTokensAux at ht
    by_cases hw : c.isWhitespace
    · rw [if_pos hw] at ht
      by_cases he : acc.isEmpty
      · rw [if_pos he] at ht
        exact wsTokensAux_no_ws rest [] (by simp) t ht d hd
      · rw [if_neg he] at ht
        cases ht with
        | head => exact hacc d (List.mem_reverse.mp hd)
        | tail _ ht => exact wsTokensAux_no_ws rest [] (by simp) t ht d hd
    · rw [if_neg hw] at ht
      refine wsTokensAux_no_ws rest (c :: acc) ?_ t ht d hd
      intro e he
      cases he with
      | head => simpa using hw
      | tail _ he => exact hacc e he

/-- `dropWhile` is the identity when no element satisfies the
predicate. -/
theorem dropWhile_all_false (p : α → Bool) (l : List α)
    (h : ∀ c ∈ l, p c = false) : l.dropWhile p = l := by
  cases l with
  | nil => rfl
  | cons c t => simp [List.dropWhile, h c (by simp)]

/-- `str.strip()` is the identity on strings without whitespace. -/
theorem pyStrip_eq_self (s : String) (h : ∀ c ∈ s.data, c.isWhitespace = false) :
    pyStrip s = s := by
  unfold pyStrip
  rw [dropWhile_all_false _ _ h,
    dropWhile_all_false _ _ (fun c hc => h c (List.mem_reverse.mp hc)),
    List.reverse_reverse]

/-- Stripping each token of `str.split()` changes nothing: the tokens
carry no whitespace. -/
theorem map_pyStrip_pySplitWs (s : String) :
    (pySplitWs s).map pyStrip = pySplitWs s := by
  unfold pySplitWs
  rw [List.map_map]
  apply List.map_congr_left
  intro t ht
  exact pyStrip_eq_self ⟨t⟩ (wsTokensAux_no_ws s.data [] (by simp) t ht)

/-- The word-size SWIG flag is distinct from any `-I...` include
flag. -/
theorem dswigwordsize_ne_dashI (a : String) :
    ¬("-DSWIGWORDSIZE64" = "-I" ++ a) := by
  intro h
  have h2 := congrArg String.data h
  simp [String.data_append] at h2

/-- The GPU wrapper SWIG flag is distinct from any `-I...` include
flag. -/
theorem gpuwrapper_ne_dashI (a : String) :
    ¬("-DGPU_WRAPPER" = "-I" ++ a) := by
  intro h
  have h2 := congrArg String.data h
  simp [String.data_append] at h2

/-- Shared helper: conditional inclusion of the word-size and GPU
wrapper flags in `swig_opts`. -/
theorem swigFlagsSpecAux (env : Env) (platform : String) :
    ("-DSWIGWORDSIZE64" ∈ (swigfaissExt env platform).swig_opts ↔
      pyIn "macos" platform = false) ∧
    ("-DGPU_WRAPPER" ∈ (swigfaissExt env platform).swig_opts ↔
      BUILD_CUDA env = true) := by
  cases hmac : pyIn "macos" platform <;> cases hcuda : BUILD_CUDA env <;>
    simp [swigfaissExt, hmac, hcuda, String.append_assoc,
      dswigwordsize_ne_dashI, gpuwrapper_ne_dashI]

/-- Shared helper: package identity resolution and the meaning of
"dots removed". -/
theorem packageIdentityAux (env : Env) :
    (BUILD_CUDA env = true →
      PACKAGE_NAME env =
        "faiss-cu" ++ pyReplaceDot (GETENV env "CUDA_VERSION" "7.5")) ∧
    (BUILD_CUDA env = false → PACKAGE_NAME env = "faiss-cpu") ∧
    (∀ V : String, '.' ∉ (pyReplaceDot V).data ∧
      (pyReplaceDot V).data.Sublist V.data ∧
      ∀ c : Char, c ≠ '.' →
        (pyReplaceDot V).data.count c = V.data.count c) := by
  refine ⟨fun h => by simp [PACKAGE_NAME, h], fun h => by simp [PACKAGE_NAME, h],
    fun V => ⟨?_, ?_, ?_⟩⟩
  · intro hmem
    have := (List.mem_filter.mp hmem).2
    simp at this
  · exact List.filter_sublist V.data
  · intro c hc
    exact List.count_filter (by simpa using hc)

/-- Shared helper: the default link strategy taken when `FAISS_LDFLAGS`
is unset. -/
theorem defaultLinkAux (env : Env) (h : env "FAISS_LDFLAGS" = none) :
    (runLinkSetup env initState).libraries =
      "faiss" :: (if BUILD_CUDA env then gpuLibraries else []) ∧
    (runLinkSetup env initState).link_objects = none ∧
    ("cudart_static" ∈ (runLinkSetup env initState).libraries ∧
     "cublas_static" ∈ (runLinkSetup env initState).libraries ∧
     "culibos" ∈ (runLinkSetup env initState).libraries ↔
       BUILD_CUDA env = true) := by
  cases hcuda : BUILD_CUDA env <;>
    simp [runLinkSetup, h, pyTruthy, initState, hcuda, gpuLibraries]

/-!  Claim theorems. -/

/-- C5: the flag-stripping operation of `CustomBuildExt._remove_flag` is
idempotent, removes all occurrences, and preserves order: stripping a
flag not present leaves the list unchanged; after stripping, no
occurrence of the flag remains; the result is a sublist of the input
(so relative order is preserved); and stripping twice equals stripping
once. -/
theorem remove_flag_correct (flag : String) (l : List String) :
    (flag ∉ l → removeFlagLoop flag l = l) ∧
    flag ∉ removeFlagLoop flag l ∧
    (removeFlagLoop flag l).Sublist l ∧
    removeFlagLoop flag (removeFlagLoop flag l) = removeFlagLoop flag l := by
  rw [removeFlagLoop_eq_filter, removeFlagLoop_eq_filter]
  refine ⟨?_, ?_, List.filter_sublist l, ?_⟩
  · intro hnot
    exact List.filter_eq_self.mpr (fun a ha => by
      simp only [decide_eq_true_eq, ne_eq]
      rintro rfl; exact hnot ha)
  · intro hmem
    have := (List.mem_filter.mp hmem).2
    simp at this
  · rw [List.filter_filter]
    apply List.filter_congr
    intro a _
    simp

/-- Witness for C5 at concrete inputs: stripping `-a` from a list not
containing it leaves it unchanged, and stripping it from a list with two
occurrences removes both while keeping the order of the rest. -/
theorem remove_flag_correct_witness :
    removeFlagLoop "-a" ["-b", "-c"] = ["-b", "-c"] ∧
    "-a" ∉ removeFlagLoop "-a" ["-b", "-a", "-c", "-a"] ∧
    (removeFlagLoop "-a" ["-b", "-a", "-c", "-a"]).Sublist
      ["-b", "-a", "-c", "-a"] :=
  ⟨(remove_flag_correct "-a" ["-b", "-c"]).1 (by decide),
   (remove_flag_correct "-a" ["-b", "-a", "-c", "-a"]).2.1,
   (remove_flag_correct "-a" ["-b", "-a", "-c", "-a"]).2.2.1⟩

/-- C6: `build_extensions` strips `-Wstrict-prototypes` from all three
compiler argument lists unconditionally, strips `-Wshorten-64-to-32`
exactly when the detected compiler name contains `gcc` or `g++`, and
removes nothing else: the result is the corresponding composition of
`List.filter`s. -/
theorem build_extensions_strips (st : CompilerState) :
    buildExtensions st =
      (if pyIn "gcc" ((stripFlagEverywhere "-Wstrict-prototypes" st).compiler.headD "")
          || pyIn "g++" ((stripFlagEverywhere "-Wstrict-prototypes" st).compiler.headD "") then
        stripFlagEverywhere "-Wshorten-64-to-32"
          (stripFlagEverywhere "-Wstrict-prototypes" st)
      else stripFlagEverywhere "-Wstrict-prototypes" st) := by
  simp only [buildExtensions, removeFlag, stripFlagEverywhere,
    removeFlagLoop_eq_filter]

/-- C7: in the assembled `swig_opts`, `-DSWIGWORDSIZE64` occurs if and
only if the platform identifier does not contain `macos`, and
`-DGPU_WRAPPER` occurs if and only if `FAISS_BUILD_CUDA` is present in
the environment. -/
theorem swig_opts_conditional (env : Env) (platform : String) :
    ("-DSWIGWORDSIZE64" ∈ (swigfaissExt env platform).swig_opts ↔
      pyIn "macos" platform = false) ∧
    ("-DGPU_WRAPPER" ∈ (swigfaissExt env platform).swig_opts ↔
      BUILD_CUDA env = true) :=
  swigFlagsSpecAux env platform

/-- C4: when `FAISS_BUILD_CUDA` is present the package name embeds the
`CUDA_VERSION` value (defaulting to `7.5` when unset) with its dots
removed; when absent it is the fixed name `faiss-cpu`.  The third
conjunct makes "with dots removed" precise: the embedded string contains
no dot, is an order-preserving subsequence of the version string, and
keeps every non-dot character with its multiplicity. -/
theorem package_identity (env : Env) :
    (BUILD_CUDA env = true →
      PACKAGE_NAME env =
        "faiss-cu" ++ pyReplaceDot (GETENV env "CUDA_VERSION" "7.5")) ∧
    (BUILD_CUDA env = false → PACKAGE_NAME env = "faiss-cpu") ∧
    (∀ V : String, '.' ∉ (pyReplaceDot V).data ∧
      (pyReplaceDot V).data.Sublist V.data ∧
      ∀ c : Char, c ≠ '.' →
        (pyReplaceDot V).data.count c = V.data.count c) :=
  packageIdentityAux env

/-- Witness for C4: with `FAISS_BUILD_CUDA` set and `CUDA_VERSION`
`9.0`, the package name is `faiss-cu90`; with nothing set it is
`faiss-cpu`. -/
theorem package_identity_witness :
    PACKAGE_NAME envGpu90 = "faiss-cu90" ∧
    PACKAGE_NAME envNone = "faiss-cpu" :=
  ⟨by rw [(package_identity envGpu90).1 (by decide)]; decide,
   (package_identity envNone).2.1 (by decide)⟩

/-- C3: when `FAISS_LDFLAGS` is absent, `CustomBuildExt.run` links the
default library `faiss`, leaves `link_objects` unset, and appends the
GPU runtime libraries `cudart_static`, `cublas_static`, `culibos` if and
only if `FAISS_BUILD_CUDA` is present. -/
theorem default_link_strategy (env : Env) (h : env "FAISS_LDFLAGS" = none) :
    (runLinkSetup env initState).libraries =
      "faiss" :: (if BUILD_CUDA env then gpuLibraries else []) ∧
    (runLinkSetup env initState).link_objects = none ∧
    ("cudart_static" ∈ (runLinkSetup env initState).libraries ∧
     "cublas_static" ∈ (runLinkSetup env initState).libraries ∧
     "culibos" ∈ (runLinkSetup env initState).libraries ↔
       BUILD_CUDA env = true) :=
  defaultLinkAux env h

/-- Witness for C3 at concrete environments: with nothing set only
`faiss` is linked; with `FAISS_BUILD_CUDA` set the GPU libraries
follow. -/
theorem default_link_strategy_witness :
    (runLinkSetup envNone initState).libraries = ["faiss"] ∧
    (runLinkSetup envGpu90 initState).libraries =
      ["faiss", "cudart_static", "cublas_static", "culibos"] :=
  ⟨by rw [(default_link_strategy envNone (by decide)).1]; decide,
   by rw [(default_link_strategy envGpu90 (by decide)).1]; decide⟩

/-- C9: when `FAISS_LDFLAGS` is set to the empty string, the
configurator behaves as if it were absent — the code tests truthiness,
not presence — so the default library `faiss` (plus GPU libraries when
GPU is enabled) is linked and no link-object sequence is created. -/
theorem empty_ldflags_falls_back (env : Env)
    (h : env "FAISS_LDFLAGS" = some "") :
    (runLinkSetup env initState).link_objects = none ∧
    (runLinkSetup env initState).libraries =
      "faiss" :: (if BUILD_CUDA env then gpuLibraries else []) := by
  simp [runLinkSetup, h, pyTruthy, initState]

/-- Witness for C9: with `FAISS_LDFLAGS` set to the empty string and no
GPU indicator, `faiss` is linked and `link_objects` stays unset. -/
theorem empty_ldflags_falls_back_witness :
    (runLinkSetup envLdEmpty initState).link_objects = none ∧
    (runLinkSetup envLdEmpty initState).libraries = ["faiss"] :=
  ⟨(empty_ldflags_falls_back envLdEmpty (by decide)).1,
   by rw [(empty_ldflags_falls_back envLdEmpty (by decide)).2]; decide⟩

/-- Counterexample to C2 as stated: with `FAISS_LDFLAGS` set to the
empty string — a string — the link objects are not the whitespace-split
tokens of that string, and the default library name `faiss` does appear
in the link strategy, because the code tests truthiness rather than
presence. -/
theorem explicit_ldflags_counterexample :
    envLdEmpty "FAISS_LDFLAGS" = some "" ∧
    ¬((runLinkSetup envLdEmpty initState).link_objects =
        some (pySplitWs "") ∧
      "faiss" ∉ (runLinkSetup envLdEmpty initState).libraries) := by
  refine ⟨rfl, ?_⟩
  intro hcl
  exact hcl.2 (by decide)

/-- C2 amended: for every environment in which `FAISS_LDFLAGS` is set
to a *non-empty* string, the link-object sequence equals the
whitespace-split tokens of that string and no default library name is
linked. -/
theorem explicit_ldflags_link_objects (env : Env) (s : String)
    (hset : env "FAISS_LDFLAGS" = some s) (hne : s ≠ "") :
    (runLinkSetup env initState).link_objects = some (pySplitWs s) ∧
    (runLinkSetup env initState).libraries = [] := by
  have htr : pyTruthy (some s) = true := by simp [pyTruthy, hne]
  simp [runLinkSetup, hset, htr, initState, map_pyStrip_pySplitWs]

/-- Witness for the amended C2: a link-flags string with repeated and
surrounding whitespace yields exactly its two tokens and an empty
library list. -/
theorem explicit_ldflags_link_objects_witness :
    (runLinkSetup envLd initState).link_objects =
      some ["-lfaiss", "-lgomp"] ∧
    (runLinkSetup envLd initState).libraries = [] := by
  have h := explicit_ldflags_link_objects envLd " -lfaiss  -lgomp "
    (by decide) (by decide)
  exact ⟨by rw [h.1]; decide, h.2⟩

/-- Counterexample to C1 as stated: in an environment with both
`FAISS_BUILD_CUDA` and a non-empty `FAISS_LDFLAGS`, no GPU library is
linked — the explicit link objects replace the default libraries, GPU
ones included — even though the GPU preprocessor flag is present. -/
theorem gpu_with_ldflags_counterexample :
    BUILD_CUDA envGpuLd = true ∧
    "cudart_static" ∉ (runLinkSetup envGpuLd initState).libraries ∧
    "cublas_static" ∉ (runLinkSetup envGpuLd initState).libraries ∧
    "culibos" ∉ (runLinkSetup envGpuLd initState).libraries := by
  decide

/-- C1 amended: when `FAISS_BUILD_CUDA` is present, the GPU
preprocessor flag `-DGPU_WRAPPER` is always in `swig_opts`; the GPU
libraries are linked exactly when no truthy `FAISS_LDFLAGS` is
supplied — when one is, the explicit link objects fully replace the
default libraries, GPU ones included. -/
theorem gpu_build_effects (env : Env) (platform : String)
    (h : BUILD_CUDA env = true) :
    "-DGPU_WRAPPER" ∈ (swigfaissExt env platform).swig_opts ∧
    (pyTruthy (env "FAISS_LDFLAGS") = false →
      "cudart_static" ∈ (runLinkSetup env initState).libraries ∧
      "cublas_static" ∈ (runLinkSetup env initState).libraries ∧
      "culibos" ∈ (runLinkSetup env initState).libraries) ∧
    (pyTruthy (env "FAISS_LDFLAGS") = true →
      (runLinkSetup env initState).libraries = []) := by
  refine ⟨(swigFlagsSpecAux env platform).2.mpr h, ?_, ?_⟩
  · intro hf
    simp [runLinkSetup, hf, initState, h, gpuLibraries]
  · intro ht
    simp [runLinkSetup, ht, initState]

/-- Witness for the amended C1: with `FAISS_BUILD_CUDA` set and no link
flags, the wrapper flag and all three GPU libraries are present. -/
theorem gpu_build_effects_witness :
    "-DGPU_WRAPPER" ∈ (swigfaissExt envGpu90 "linux-x86_64").swig_opts ∧
    "cudart_static" ∈ (runLinkSetup envGpu90 initState).libraries ∧
    "cublas_static" ∈ (runLinkSetup envGpu90 initState).libraries ∧
    "culibos" ∈ (runLinkSetup envGpu90 initState).libraries := by
  have h := gpu_build_effects envGpu90 "linux-x86_64" (by decide)
  exact ⟨h.1, h.2.1 (by decide)⟩

/-- C10: the GPU-build decision depends only on the presence of the key
`FAISS_BUILD_CUDA`, never on its value: for every value, the empty
string included, the GPU package name, the GPU wrapper flag and (absent
link flags) the GPU libraries all follow. -/
theorem build_cuda_presence_only (env : Env) (v : String) (platform : String)
    (h : env "FAISS_BUILD_CUDA" = some v) :
    BUILD_CUDA env = true ∧
    PACKAGE_NAME env =
      "faiss-cu" ++ pyReplaceDot (GETENV env "CUDA_VERSION" "7.5") ∧
    "-DGPU_WRAPPER" ∈ (swigfaissExt env platform).swig_opts ∧
    (env "FAISS_LDFLAGS" = none →
      gpuLibraries.Sublist (runLinkSetup env initState).libraries) := by
  have hc : BUILD_CUDA env = true := by simp [BUILD_CUDA, h]
  refine ⟨hc, (packageIdentityAux env).1 hc,
    (swigFlagsSpecAux env platform).2.mpr hc, ?_⟩
  intro hf
  rw [(defaultLinkAux env hf).1, hc]
  simp

/-- Witness for C10 at the value-free extreme: `FAISS_BUILD_CUDA` set
to the empty string still selects the GPU package name (with the
default toolkit version 7.5), the wrapper flag and the GPU
libraries. -/
theorem build_cuda_presence_only_witness :
    BUILD_CUDA envCudaEmptyVal = true ∧
    PACKAGE_NAME envCudaEmptyVal = "faiss-cu75" ∧
    "-DGPU_WRAPPER" ∈ (swigfaissExt envCudaEmptyVal "linux-x86_64").swig_opts ∧
    gpuLibraries.Sublist (runLinkSetup envCudaEmptyVal initState).libraries := by
  have h := build_cuda_presence_only envCudaEmptyVal "" "linux-x86_64"
    (by decide)
  exact ⟨h.1, by rw [h.2.1]; decide, h.2.2.1, h.2.2.2 (by decide)⟩

/-- C8: configuration is deterministic — any two environments that
agree on the five variables the script reads, together with the same
platform identifier, produce the identical extension spec, link state
and package identity. -/
theorem configuration_deterministic (e1 e2 : Env) (platform : String)
    (h : ∀ k ∈ relevantVars, e1 k = e2 k) :
    configure e1 platform = configure e2 platform := by
  have h1 := h "FAISS_BUILD_CUDA" (by simp [relevantVars])
  have h2 := h "CUDA_VERSION" (by simp [relevantVars])
  have h3 := h "FAISS_INCLUDE" (by simp [relevantVars])
  have h4 := h "CUDA_HOME" (by simp [relevantVars])
  have h5 := h "FAISS_LDFLAGS" (by simp [relevantVars])
  simp [configure, swigfaissExt, runLinkSetup, PACKAGE_NAME, BUILD_CUDA,
    GETENV, h1, h2, h3, h4, h5]

/-- Witness for C8: an empty environment and one that only sets an
irrelevant variable configure identically. -/
theorem configuration_deterministic_witness :
    configure envNone "linux-x86_64" = configure envExtra "linux-x86_64" :=
  configuration_deterministic envNone envExtra "linux-x86_64" (by decide)
